import Mathlib

/-!
Verification of the NWS weather CLI (src/weather.py) against its
specification.  The program is embedded shallowly: JSON documents become an
inductive type, the pure formatting functions of weather.py become Lean
functions over it, and the network-dependent resolution chain becomes a
function of an oracle that answers each request, recording the requests
issued and the messages printed to standard error.  Numeric JSON fields are
modelled as exact rationals; Python float formatting is modelled as exact
round-half-to-even fixed-point printing, which agrees with CPython on every
value whose computation is exact in binary floating point (in particular on
all inputs evaluated concretely below).
-/

namespace NWS

/-- Python str.strip(): drop leading and trailing whitespace. -/
def pyStrip (s : String) : String :=
  String.mk (((s.data.dropWhile Char.isWhitespace).reverse.dropWhile Char.isWhitespace).reverse)

/-- Python s.split(c)[-1] for a one-character separator: the suffix after the
last occurrence of c, or all of s when c does not occur. -/
def lastSeg (c : Char) (s : String) : String :=
  String.mk ((s.data.reverse.takeWhile (fun d => !(d = c : Bool))).reverse)

/-- Python str.upper() on the ASCII range used by ICAO station codes. -/
def pyUpper (s : String) : String := String.mk (s.data.map Char.toUpper)

/-- Python sep.join(xs). -/
def joinSep (sep : String) : List String → String
  | [] => ""
  | [s] => s
  | s :: rest => s ++ sep ++ joinSep sep rest

/-- Pad a digit string on the left with zeros to width w. -/
def leftPad (w : ℕ) (s : String) : String :=
  String.mk (List.replicate (w - s.length) '0') ++ s

/-- Python fixed-point formatting of an exact rational value with prec digits
after the point, rounding ties to even, as printf-style formatting does on
the exact value of a binary float. -/
def fmtFixed (prec : ℕ) (q : ℚ) : String :=
  let sign := if q.num < 0 then "-" else ""
  let a : ℕ := q.num.natAbs * 10 ^ prec
  let b : ℕ := q.den
  let quot := a / b
  let rem := a % b
  let n := if 2 * rem < b then quot
           else if b < 2 * rem then quot + 1
           else if quot % 2 = 0 then quot else quot + 1
  if prec = 0 then sign ++ toString n
  else sign ++ toString (n / 10 ^ prec) ++ "." ++ leftPad prec (toString (n % 10 ^ prec))

/-- JSON-like documents, the shape of every response body in weather.py. -/
inductive Json where
  | null
  | bool (b : Bool)
  | num (q : ℚ)
  | str (s : String)
  | arr (xs : List Json)
  | obj (fs : List (String × Json))

/-- Python dict.get(k) on an object: the stored value, none when the key is
absent.  Non-object documents carry no keys. -/
def Json.dget : Json → String → Option Json
  | .obj fs, k => fs.lookup k
  | _, _ => none

/-- Python truthiness of a JSON value: None, False, 0, empty string, empty
list and empty dict are falsy. -/
def Json.truthy : Json → Bool
  | .null => false
  | .bool b => b
  | .num q => if q = 0 then false else true
  | .str s => if s = "" then false else true
  | .arr xs => if xs.isEmpty then false else true
  | .obj fs => if fs.isEmpty then false else true

/-- The elements of a JSON array. -/
def Json.asList : Json → List Json
  | .arr xs => xs
  | _ => []

/-- Python str() of a number: integers print without a point; a float whose
value is a terminating decimal prints as that decimal.  The documents of the
weather service carry only such numbers. -/
def pyNumStr (q : ℚ) : String :=
  if q.den = 1 then toString q.num
  else
    match (List.range 30).find? (fun k => (q.num.natAbs * 10 ^ (k + 1)) % q.den = 0) with
    | some k =>
        let p := k + 1
        let n := q.num.natAbs * 10 ^ p / q.den
        (if q.num < 0 then "-" else "") ++
          toString (n / 10 ^ p) ++ "." ++ leftPad p (toString (n % 10 ^ p))
    | none => toString q.num ++ "/" ++ toString q.den

/-- Python str() of a scalar JSON value as interpolated by an f-string.
Containers never occupy the formatted positions in the service's documents. -/
def pyStr : Json → String
  | .null => "None"
  | .bool b => if b then "True" else "False"
  | .num q => pyNumStr q
  | .str s => s
  | .arr _ => "[...]"
  | .obj _ => "<dict>"

/-! ## Current-observation renderer (weather.py, format_current_weather) -/

/-- data.get('properties', ...) as both renderers perform it. -/
def propsOf (data : Json) : Json := (data.dget "properties").getD (.obj [])

/-- properties.get(k, ...).get('value'): the measurement value of field k,
with JSON null collapsing to Python None. -/
def measValue (data : Json) (k : String) : Option Json :=
  match (((propsOf data).dget k).getD (.obj [])).dget "value" with
  | some .null => none
  | some v => some v
  | none => none

/-- The numeric measurement value of field k.  The source applies arithmetic
to these values, so in its data model they are numbers whenever present. -/
def measNum (data : Json) (k : String) : Option ℚ :=
  match measValue data k with
  | some (.num q) => some q
  | _ => none

/-- properties.get('station', 'Unknown').split('/')[-1] (weather.py:101). -/
def stationName (data : Json) : String :=
  lastSeg '/' (match (propsOf data).dget "station" with
               | some (.str s) => s
               | _ => "Unknown")

/-- properties.get('timestamp', 'Unknown') (weather.py:102). -/
def timestampStr (data : Json) : String :=
  pyStr (((propsOf data).dget "timestamp").getD (.str "Unknown"))

/-- properties.get('textDescription', 'N/A') (weather.py:118). -/
def descriptionStr (data : Json) : String :=
  pyStr (((propsOf data).dget "textDescription").getD (.str "N/A"))

/-- The temperature value (weather.py:105-106). -/
def tempValue (data : Json) : Option ℚ := measNum data "temperature"

/-- temp.get('unitCode', '').split(':')[-1] (weather.py:107). -/
def tempUnit (data : Json) : String :=
  lastSeg ':' (match (((propsOf data).dget "temperature").getD (.obj [])).dget "unitCode" with
               | some (.str s) => s
               | _ => "")

/-- The temperature display string (weather.py:109-115): converted to
Fahrenheit when the unit code ends in degC, otherwise the raw value with the
raw unit suffix, and N/A when absent. -/
def tempStr (data : Json) : String :=
  match tempValue data with
  | some v =>
      if tempUnit data = "degC" then
        fmtFixed 1 (v * 9 / 5 + 32) ++ "°F (" ++ fmtFixed 1 v ++ "°C)"
      else fmtFixed 1 v ++ "°" ++ tempUnit data
  | none => "N/A"

/-- The wind display string (weather.py:121-127): requires both speed and
direction, the direction interpolated by str(). -/
def windStr (data : Json) : String :=
  match measNum data "windSpeed", measValue data "windDirection" with
  | some s, some d => fmtFixed 1 s ++ " km/h from " ++ pyStr d ++ "°"
  | _, _ => "N/A"

/-- The humidity display string (weather.py:130-131). -/
def humidityStr (data : Json) : String :=
  match measNum data "relativeHumidity" with
  | some h => fmtFixed 0 h ++ "%"
  | none => "N/A"

/-- The dewpoint value (weather.py:134). -/
def dewpointValue (data : Json) : Option ℚ := measNum data "dewpoint"

/-- The dewpoint display string (weather.py:135-139): converted to Fahrenheit
unconditionally whenever present. -/
def dewpointStr (data : Json) : String :=
  match dewpointValue data with
  | some v => fmtFixed 1 (v * 9 / 5 + 32) ++ "°F (" ++ fmtFixed 1 v ++ "°C)"
  | none => "N/A"

/-- The unit code carried by the dewpoint field of the input document, read
the way the source reads the temperature unit code.  The source itself never
consults this field for dewpoint. -/
def dewpointUnit (data : Json) : String :=
  lastSeg ':' (match (((propsOf data).dget "dewpoint").getD (.obj [])).dget "unitCode" with
               | some (.str s) => s
               | _ => "")

/-- The barometric pressure value in pascals (weather.py:142). -/
def pressureValue (data : Json) : Option ℚ := measNum data "barometricPressure"

/-- The pressure display string (weather.py:143-147): pascals divided by 100,
one decimal place, suffix mb. -/
def pressureStr (data : Json) : String :=
  match pressureValue data with
  | some v => fmtFixed 1 (v / 100) ++ " mb"
  | none => "N/A"

/-- The visibility display string (weather.py:150-155): meters divided by
1609.34, one decimal place, suffix mi. -/
def visibilityStr (data : Json) : String :=
  match measNum data "visibility" with
  | some v => fmtFixed 1 (v / 1609.34) ++ " mi"
  | none => "N/A"

/-- The wind-chill value (weather.py:158). -/
def windChillValue (data : Json) : Option ℚ := measNum data "windChill"

/-- The heat-index value (weather.py:159). -/
def heatIndexValue (data : Json) : Option ℚ := measNum data "heatIndex"

/-- The feels-like string (weather.py:161-167): wind chill when present,
else heat index when present, else nothing; each converted to Fahrenheit
unconditionally. -/
def feelsLikeStr (data : Json) : Option String :=
  match windChillValue data with
  | some v => some (fmtFixed 1 (v * 9 / 5 + 32) ++ "°F (Wind Chill)")
  | none =>
      match heatIndexValue data with
      | some v => some (fmtFixed 1 (v * 9 / 5 + 32) ++ "°F (Heat Index)")
      | none => none

/-- One cloud layer (weather.py:172): amount and base height with N/A
defaults, interpolated by str(). -/
def cloudLayerStr (layer : Json) : String :=
  pyStr ((layer.dget "amount").getD (.str "N/A")) ++ " at " ++
    pyStr ((((layer.dget "base").getD (.obj [])).dget "value").getD (.str "N/A")) ++ "m"

/-- The cloud-layers display string (weather.py:170-175). -/
def cloudStr (data : Json) : String :=
  let layers := ((propsOf data).dget "cloudLayers").getD (.arr [])
  if layers.truthy then joinSep ", " (layers.asList.map cloudLayerStr) else "N/A"

/-- The precipitation display string (weather.py:178-182). -/
def precipStr (data : Json) : String :=
  match measNum data "precipitationLastHour" with
  | some v => fmtFixed 2 v ++ " mm"
  | none => "N/A"

/-- The 40-character divider line used by both renderers. -/
def divider : String := String.mk (List.replicate 40 '=')

/-- The optional feels-like line (weather.py:191-192): emitted only when the
feels-like string is truthy. -/
def feelsLine (data : Json) : List String :=
  match feelsLikeStr data with
  | some s => if s = "" then [] else ["Feels Like: " ++ s]
  | none => []

/-- The lines of the current-weather block, in the order the f-strings of
weather.py:184-202 emit them. -/
def currentLines (data : Json) : List String :=
  ["Current Weather for " ++ stationName data,
   divider,
   "Time: " ++ timestampStr data,
   "Conditions: " ++ descriptionStr data,
   "Temperature: " ++ tempStr data]
  ++ feelsLine data
  ++ ["Dewpoint: " ++ dewpointStr data,
      "Wind: " ++ windStr data,
      "Humidity: " ++ humidityStr data,
      "Pressure: " ++ pressureStr data,
      "Visibility: " ++ visibilityStr data,
      "Cloud Layers: " ++ cloudStr data,
      "Precipitation (last hour): " ++ precipStr data]

/-- format_current_weather (weather.py:95-203): the newline-joined block,
stripped. -/
def format_current_weather (data : Json) : String :=
  pyStrip ("\n" ++ joinSep "\n" (currentLines data) ++ "\n")

/-! ## Forecast renderer (weather.py, format_forecast) -/

/-- properties.get('periods', []) (weather.py:210). -/
def periodsJson (data : Json) : Json := ((propsOf data).dget "periods").getD (.arr [])

/-- period.get('name', 'Unknown') interpolated by str() (weather.py:220). -/
def periodName (p : Json) : String := pyStr ((p.dget "name").getD (.str "Unknown"))

/-- period.get('temperature', 'N/A') interpolated by str() (weather.py:221). -/
def periodTemp (p : Json) : String := pyStr ((p.dget "temperature").getD (.str "N/A"))

/-- period.get('temperatureUnit', 'F') interpolated by str() (weather.py:222). -/
def periodTempUnit (p : Json) : String := pyStr ((p.dget "temperatureUnit").getD (.str "F"))

/-- period.get('shortForecast', 'N/A') interpolated by str() (weather.py:223). -/
def periodShort (p : Json) : String := pyStr ((p.dget "shortForecast").getD (.str "N/A"))

/-- period.get('detailedForecast', '') (weather.py:224). -/
def periodDetailed (p : Json) : Json := (p.dget "detailedForecast").getD (.str "")

/-- The text block of one forecast period (weather.py:226-231). -/
def formatPeriod (p : Json) : String :=
  periodName p ++ ":\n" ++
  "  Temperature: " ++ periodTemp p ++ "°" ++ periodTempUnit p ++ "\n" ++
  "  " ++ periodShort p ++ "\n" ++
  (if (periodDetailed p).truthy then "  " ++ pyStr (periodDetailed p) ++ "\n" else "") ++
  "\n"

/-- The blocks rendered by the loop over periods[:14] (weather.py:219). -/
def renderedPeriods (data : Json) : List String :=
  ((periodsJson data).asList.take 14).map formatPeriod

/-- format_forecast (weather.py:206-233): the literal no-data string on a
falsy periods value, otherwise header, divider and the first 14 period
blocks, stripped. -/
def format_forecast (data : Json) : String :=
  if (periodsJson data).truthy then
    pyStrip ("\nWeather Forecast\n" ++ divider ++ "\n\n" ++ String.join (renderedPeriods data))
  else "No forecast data available"

/-! ## Resolution chain and CLI driver (weather.py, WeatherClient and main) -/

/-- The network requests weather.py can issue, identified by the data that
parametrises their URLs.  A points lookup carries latitude first, longitude
second, exactly as the values are interpolated into the URL. -/
inductive Request where
  | currentObs (station : String)
  | stationMeta (station : String)
  | pointsLookup (lat lon : Json)
  | forecastDoc (url : Json)

/-- The HTTP collaborator: each request either yields a JSON body or raises a
transport error carrying a message. -/
structure NetOracle where
  currentObs : String → Except String Json
  stationMeta : String → Except String Json
  pointsLookup : Json → Json → Except String Json
  forecastDoc : Json → Except String Json

/-- The outcome of a fetch: the document if any, the requests issued in
order, and the messages printed to standard error. -/
structure FetchResult where
  doc : Option Json
  requests : List Request
  errors : List String

/-- station_data.get('geometry', ...).get('coordinates', []) as a list
(weather.py:63-64). -/
def coordsList (stationData : Json) : List Json :=
  ((((stationData.dget "geometry").getD (.obj [])).dget "coordinates").getD (.arr [])).asList

/-- points_data.get('properties', ...).get('forecast') (weather.py:79), with
an absent reference behaving as Python None. -/
def forecastUrl (pointsData : Json) : Json :=
  (((pointsData.dget "properties").getD (.obj [])).dget "forecast").getD .null

/-- The coordinate-resolution error message (weather.py:67). -/
def coordsErrMsg : String := "Error: Could not determine station coordinates"

/-- The forecast-reference error message (weather.py:82). -/
def urlErrMsg : String := "Error: Could not determine forecast URL"

/-- The transport-failure message of the forecast chain (weather.py:91). -/
def fetchForecastErr (e : String) : String := "Error fetching forecast: " ++ e

/-- WeatherClient.get_forecast (weather.py:47-92): station metadata, then the
point lookup with latitude and longitude swapped relative to the stored
order, then the forecast document, short-circuiting at the first failure. -/
def get_forecast (station : String) (net : NetOracle) : FetchResult :=
  match net.stationMeta station with
  | .error e => ⟨none, [.stationMeta station], [fetchForecastErr e]⟩
  | .ok stationData =>
      let coordinates := coordsList stationData
      if coordinates.length < 2 then
        ⟨none, [.stationMeta station], [coordsErrMsg]⟩
      else
        let lon := coordinates.getD 0 .null
        let lat := coordinates.getD 1 .null
        match net.pointsLookup lat lon with
        | .error e => ⟨none, [.stationMeta station, .pointsLookup lat lon], [fetchForecastErr e]⟩
        | .ok pointsData =>
            let u := forecastUrl pointsData
            if u.truthy then
              match net.forecastDoc u with
              | .error e =>
                  ⟨none, [.stationMeta station, .pointsLookup lat lon, .forecastDoc u],
                   [fetchForecastErr e]⟩
              | .ok doc =>
                  ⟨some doc, [.stationMeta station, .pointsLookup lat lon, .forecastDoc u], []⟩
            else ⟨none, [.stationMeta station, .pointsLookup lat lon], [urlErrMsg]⟩

/-- WeatherClient.get_current_weather (weather.py:30-45). -/
def get_current_weather (station : String) (net : NetOracle) : FetchResult :=
  match net.currentObs station with
  | .ok doc => ⟨some doc, [.currentObs station], []⟩
  | .error e => ⟨none, [.currentObs station], ["Error fetching current weather: " ++ e]⟩

/-- An ASCII single-quote character as a string. -/
def squote : String := String.mk [Char.ofNat 39]

/-- The station-code length error message (weather.py:261). -/
def lengthErrMsg (loc : String) : String :=
  "Error: Station code must be 4 characters (got " ++ squote ++ loc ++ squote ++ ")"

/-- What one CLI invocation observably does: exit status, stdout prints,
stderr prints, network requests in order. -/
structure RunResult where
  exitCode : ℕ
  stdoutLines : List String
  stderrLines : List String
  requests : List Request

/-- main (weather.py:236-280): length validation before any network
activity, upper-casing of the station code, then fetch and render, with a
falsy document exiting 1 exactly like a failed fetch. -/
def main (location : String) (forecastFlag : Bool) (net : NetOracle) : RunResult :=
  if location.length ≠ 4 then
    ⟨1, [], [lengthErrMsg location], []⟩
  else
    let code := pyUpper location
    if forecastFlag then
      let r := get_forecast code net
      match r.doc with
      | some d =>
          if d.truthy then ⟨0, [format_forecast d], r.errors, r.requests⟩
          else ⟨1, [], r.errors, r.requests⟩
      | none => ⟨1, [], r.errors, r.requests⟩
    else
      let r := get_current_weather code net
      match r.doc with
      | some d =>
          if d.truthy then ⟨0, [format_current_weather d], r.errors, r.requests⟩
          else ⟨1, [], r.errors, r.requests⟩
      | none => ⟨1, [], r.errors, r.requests⟩

/-- Field k of the observation properties is absent, or an object whose value
entry is absent, null or numeric: the shapes on which Python's defaulted
lookups and arithmetic in format_current_weather are defined. -/
def measOk (data : Json) (k : String) : Bool :=
  match (propsOf data).dget k with
  | none => true
  | some (.obj fs) =>
      match fs.lookup "value" with
      | none => true
      | some .null => true
      | some (.num _) => true
      | some _ => false
  | some _ => false

/-! ## Concrete sample documents and oracles used in witnesses -/

/-- An oracle on which every request fails at the transport level. -/
def downNet : NetOracle :=
  ⟨fun _ => .error "down", fun _ => .error "down",
   fun _ _ => .error "down", fun _ => .error "down"⟩

/-- An oracle whose station-metadata response is an empty object. -/
def emptyStationNet : NetOracle :=
  ⟨fun _ => .error "down", fun _ => .ok (.obj []),
   fun _ _ => .error "down", fun _ => .error "down"⟩

/-- An oracle whose latest-observation response is an empty object. -/
def emptyObsNet : NetOracle :=
  ⟨fun _ => .ok (.obj []), fun _ => .error "down",
   fun _ _ => .error "down", fun _ => .error "down"⟩

/-- A sample stored longitude. -/
def sampleLon : ℚ := -100.2853

/-- A sample stored latitude. -/
def sampleLat : ℚ := 44.0453

/-- Station metadata whose geometry stores coordinates as longitude first,
latitude second. -/
def stationDoc : Json :=
  .obj [("geometry", .obj [("coordinates", .arr [.num sampleLon, .num sampleLat])])]

/-- An oracle that returns stationDoc as station metadata. -/
def coordNet : NetOracle :=
  ⟨fun _ => .error "down", fun _ => .ok stationDoc,
   fun _ _ => .error "down", fun _ => .error "down"⟩

/-- An observation whose dewpoint carries a non-Celsius unit code. -/
def degFDew : Json :=
  .obj [("properties", .obj [("dewpoint",
    .obj [("value", .num 50), ("unitCode", .str "wmoUnit:degF")])])]

/-- An observation carrying the standard-atmosphere pressure in pascals. -/
def pressureDoc : Json :=
  .obj [("properties", .obj [("barometricPressure", .obj [("value", .num 101325)])])]

/-- An observation with a Celsius temperature of zero degrees. -/
def tempDocC : Json :=
  .obj [("properties", .obj [("temperature",
    .obj [("value", .num 0), ("unitCode", .str "wmoUnit:degC")])])]

/-- An observation carrying only a heat index. -/
def heatDoc : Json :=
  .obj [("properties", .obj [("heatIndex", .obj [("value", .num 35)])])]

/-- An observation carrying both a wind chill and a heat index. -/
def bothFeels : Json :=
  .obj [("properties", .obj [("windChill", .obj [("value", .num 10)]),
                             ("heatIndex", .obj [("value", .num 30)])])]

/-- Grid-point metadata carrying a truthy forecast reference. -/
def gridDoc : Json :=
  .obj [("properties", .obj [("forecast",
    .str "https://api.weather.gov/gridpoints/ABR/32,64/forecast")])]

/-- An oracle on which the whole forecast chain succeeds at the transport
level but the final forecast document is an empty object. -/
def emptyForecastNet : NetOracle :=
  ⟨fun _ => .error "down", fun _ => .ok stationDoc,
   fun _ _ => .ok gridDoc, fun _ => .ok (.obj [])⟩

/-- A forecast document with an empty periods list. -/
def emptyPeriodsDoc : Json := .obj [("properties", .obj [("periods", .arr [])])]

/-- Fifteen forecast periods. -/
def manyPeriods : List Json := List.replicate 15 (Json.obj [])

/-- A forecast document with fifteen periods. -/
def bigForecastDoc : Json := .obj [("properties", .obj [("periods", .arr manyPeriods)])]

/-! ## Helper lemmas -/

/-- Rewrite a rational given as a division into reduced-fraction constructor
form, on which fmtFixed can be evaluated by kernel reduction. -/
theorem rat_as_mk (q : ℚ) (n : ℤ) (d : ℕ) (hd : d ≠ 0) (hc : n.natAbs.Coprime d)
    (h : q = (n : ℚ) / (d : ℚ)) : q = Rat.mk' n d hd hc := by
  rw [Rat.mk'_eq_divInt, Rat.divInt_eq_div, h]
  norm_num

/-- Appending a nonempty string on the right yields a nonempty string. -/
theorem append_ne_empty (a b : String) (hb : b.data ≠ []) : a ++ b ≠ "" := by
  intro h
  have h2 : a.data ++ b.data = [] := congrArg String.data h
  exact hb (List.append_eq_nil.mp h2).2

/-- Strings whose data begin with distinct characters are distinct. -/
theorem ne_of_data_head {x y : String} {c d : Char} {lx ly : List Char}
    (hx : x.data = c :: lx) (hy : y.data = d :: ly) (hcd : c ≠ d) : x ≠ y := by
  intro h
  rw [h, hy] at hx
  exact hcd (List.cons.inj hx).1.symm

/-- Evaluation of the pressure formatter at the standard atmosphere:
101325 Pa divided by 100 is exactly 1013.25, whose tie rounds to the even
digit, printing 1013.2. -/
theorem pressureDoc_eval : pressureStr pressureDoc = "1013.2 mb" := by
  have e : pressureStr pressureDoc = fmtFixed 1 ((101325 : ℚ) / 100) ++ " mb" := rfl
  rw [rat_as_mk ((101325 : ℚ) / 100) 4053 4 (by norm_num) (by norm_num) (by norm_num)] at e
  rw [e]
  decide

/-! ## Claims -/

/-- Claim C3: whenever the station-metadata response stores geometry
coordinates as a list beginning with two numeric components, in the order
longitude then latitude, get_forecast issues the point lookup as its second
request with latitude first and longitude second, both values passed through
unchanged. -/
theorem claim_C3_theorem (station : String) (net : NetOracle) (sd : Json)
    (lon lat : ℚ) (rest : List Json)
    (hs : net.stationMeta station = .ok sd)
    (hc : coordsList sd = .num lon :: .num lat :: rest) :
    (get_forecast station net).requests.take 2 =
      [Request.stationMeta station, Request.pointsLookup (.num lat) (.num lon)] := by
  simp only [get_forecast, hs]
  rw [hc]
  rw [if_neg (by simp)]
  simp only [List.getD_cons_zero, List.getD_cons_succ]
  cases hpl : net.pointsLookup (Json.num lat) (Json.num lon) with
  | error e => simp [hpl]
  | ok pd =>
      simp only [hpl]
      by_cases hu : (forecastUrl pd).truthy
      · simp only [hu, if_true]
        cases hfd : net.forecastDoc (forecastUrl pd) with
        | error e => simp [hfd]
        | ok doc => simp [hfd]
      · simp [hu]

/-- Witness for claim C3 at a concrete station document. -/
theorem claim_C3_witness :
    (get_forecast "KMPR" coordNet).requests.take 2 =
      [Request.stationMeta "KMPR", Request.pointsLookup (.num sampleLat) (.num sampleLon)] :=
  claim_C3_theorem "KMPR" coordNet stationDoc sampleLon sampleLat [] rfl rfl

/-- Claim C4: when the station-metadata response yields fewer than two
coordinate components, get_forecast returns no document, prints the
coordinate resolution-failure message, and issues no point-lookup and no
forecast request: its only request is the station-metadata fetch. -/
theorem claim_C4_theorem (station : String) (net : NetOracle) (sd : Json)
    (hs : net.stationMeta station = .ok sd)
    (hlen : (coordsList sd).length < 2) :
    get_forecast station net = ⟨none, [.stationMeta station], [coordsErrMsg]⟩ := by
  simp only [get_forecast, hs]
  rw [if_pos hlen]

/-- Witness for claim C4: station metadata with no geometry at all. -/
theorem claim_C4_witness :
    get_forecast "KMPR" emptyStationNet = ⟨none, [.stationMeta "KMPR"], [coordsErrMsg]⟩ :=
  claim_C4_theorem "KMPR" emptyStationNet (.obj []) rfl (by decide)

/-- Claim C5: for every command-line station code whose length is not 4, the
program exits with status 1, prints the length-error message to standard
error, and issues no network request at all. -/
theorem claim_C5_theorem (location : String) (forecastFlag : Bool) (net : NetOracle)
    (h : location.length ≠ 4) :
    main location forecastFlag net = ⟨1, [], [lengthErrMsg location], []⟩ := by
  simp [main, h]

/-- Witness for claim C5 at a 3-character code. -/
theorem claim_C5_witness :
    main "ABC" false downNet = ⟨1, [], [lengthErrMsg "ABC"], []⟩ :=
  claim_C5_theorem "ABC" false downNet (by decide)

/-- Claim C6: a forecast document whose periods list is empty renders as
exactly the literal no-data string, with no header and no divider. -/
theorem claim_C6_theorem (data : Json) (h : periodsJson data = .arr []) :
    format_forecast data = "No forecast data available" := by
  simp [format_forecast, h, Json.truthy]

/-- Witness for claim C6 at a concrete empty-periods document. -/
theorem claim_C6_witness :
    format_forecast emptyPeriodsDoc = "No forecast data available" :=
  claim_C6_theorem emptyPeriodsDoc rfl

/-- Claim C9: in either mode, when the fetch succeeds at the transport level
but returns an empty JSON object, the driver exits with status 1 and prints
nothing to standard output, exactly as it does when the fetch fails: the
latest-observation fetch and the forecast chain each yield exit 1 and empty
stdout both on an empty-object document and on no document at all. -/
theorem claim_C9_theorem (location : String) (h4 : location.length = 4) :
    (∀ net : NetOracle, net.currentObs (pyUpper location) = .ok (.obj []) →
        (main location false net).exitCode = 1 ∧
        (main location false net).stdoutLines = []) ∧
    (∀ (net : NetOracle) (e : String), net.currentObs (pyUpper location) = .error e →
        (main location false net).exitCode = 1 ∧
        (main location false net).stdoutLines = []) ∧
    (∀ net : NetOracle, (get_forecast (pyUpper location) net).doc = some (.obj []) →
        (main location true net).exitCode = 1 ∧
        (main location true net).stdoutLines = []) ∧
    (∀ net : NetOracle, (get_forecast (pyUpper location) net).doc = none →
        (main location true net).exitCode = 1 ∧
        (main location true net).stdoutLines = []) := by
  refine ⟨?_, ?_, ?_, ?_⟩
  · intro net hok
    constructor <;> simp [main, h4, get_current_weather, hok, Json.truthy]
  · intro net e herr
    constructor <;> simp [main, h4, get_current_weather, herr]
  · intro net hdoc
    constructor <;> simp [main, h4, hdoc, Json.truthy]
  · intro net hdoc
    constructor <;> simp [main, h4, hdoc]

/-- Witness for claim C9: empty-object and failing responses for the
current-observation fetch, and a transport-successful forecast chain whose
final document is an empty object next to a failing chain. -/
theorem claim_C9_witness :
    ((main "KMPR" false emptyObsNet).exitCode = 1 ∧
      (main "KMPR" false emptyObsNet).stdoutLines = []) ∧
    ((main "KMPR" false downNet).exitCode = 1 ∧
      (main "KMPR" false downNet).stdoutLines = []) ∧
    ((main "KMPR" true emptyForecastNet).exitCode = 1 ∧
      (main "KMPR" true emptyForecastNet).stdoutLines = []) ∧
    ((main "KMPR" true downNet).exitCode = 1 ∧
      (main "KMPR" true downNet).stdoutLines = []) :=
  have h := claim_C9_theorem "KMPR" (by decide)
  ⟨h.1 emptyObsNet rfl, h.2.1 downNet "down" rfl,
   h.2.2.1 emptyForecastNet rfl, h.2.2.2 downNet rfl⟩

/-- Claim C7: on a non-empty periods list the renderer renders exactly the
first 14 periods (all of them when there are 14 or fewer), each block the
rendering of the period at the same position, and the final output is the
stripped concatenation of header, divider and exactly those blocks. -/
theorem claim_C7_theorem (data : Json) (ps : List Json)
    (h : periodsJson data = .arr ps) (hne : ps ≠ []) :
    (renderedPeriods data).length = min 14 ps.length ∧
    (∀ i, i < min 14 ps.length →
      (renderedPeriods data).getD i "" = formatPeriod (ps.getD i .null)) ∧
    format_forecast data =
      pyStrip ("\nWeather Forecast\n" ++ divider ++ "\n\n" ++
        String.join (renderedPeriods data)) := by
  have hb : renderedPeriods data = (ps.take 14).map formatPeriod := by
    rw [renderedPeriods, h]
    rfl
  refine ⟨?_, ?_, ?_⟩
  · rw [hb, List.length_map, List.length_take]
  · intro i hi
    have h14 : i < 14 := (lt_min_iff.mp hi).1
    have hlen : i < ps.length := (lt_min_iff.mp hi).2
    rw [hb, List.getD_eq_getElem?_getD, List.getElem?_map, List.getElem?_take_of_lt h14,
        List.getElem?_eq_getElem hlen, List.getD_eq_getElem?_getD,
        List.getElem?_eq_getElem hlen]
    rfl
  · have ht : (periodsJson data).truthy = true := by
      rw [h]
      cases ps with
      | nil => exact absurd rfl hne
      | cons a l => rfl
    simp only [format_forecast, ht, if_true]

/-- Witness for claim C7 at a fifteen-period document: exactly 14 blocks,
and the last rendered block is the rendering of the fourteenth period. -/
theorem claim_C7_witness :
    (renderedPeriods bigForecastDoc).length = 14 ∧
    (renderedPeriods bigForecastDoc).getD 13 "" = formatPeriod (manyPeriods.getD 13 .null) := by
  have h := claim_C7_theorem bigForecastDoc manyPeriods rfl
    (fun hh => absurd (congrArg List.length hh) (by decide))
  exact ⟨h.1.trans (by decide), h.2.1 13 (by decide)⟩

/-- Claim C10: the forecast renderer substitutes fixed defaults for missing
period fields: the name becomes Unknown, the temperature N/A, the
temperature unit F, the short summary N/A, so a period with no temperature
renders its temperature line as N/A°F, and a fully empty period still
renders. -/
theorem claim_C10_theorem :
    (∀ p : Json, p.dget "name" = none → periodName p = "Unknown") ∧
    (∀ p : Json, p.dget "temperature" = none → periodTemp p = "N/A") ∧
    (∀ p : Json, p.dget "temperatureUnit" = none → periodTempUnit p = "F") ∧
    (∀ p : Json, p.dget "shortForecast" = none → periodShort p = "N/A") ∧
    (∀ p : Json, p.dget "temperature" = none → p.dget "temperatureUnit" = none →
      "  Temperature: " ++ periodTemp p ++ "°" ++ periodTempUnit p ++ "\n" =
        "  Temperature: N/A°F\n") ∧
    formatPeriod (.obj []) = "Unknown:\n  Temperature: N/A°F\n  N/A\n\n" := by
  refine ⟨?_, ?_, ?_, ?_, ?_, by decide⟩
  · intro p h
    simp only [periodName, h]
    decide
  · intro p h
    simp only [periodTemp, h]
    decide
  · intro p h
    simp only [periodTempUnit, h]
    decide
  · intro p h
    simp only [periodShort, h]
    decide
  · intro p h1 h2
    simp only [periodTemp, periodTempUnit, h1, h2]
    decide

/-- Witness for claim C10 at the empty period object. -/
theorem claim_C10_witness :
    periodName (.obj []) = "Unknown" ∧ periodTemp (.obj []) = "N/A" :=
  ⟨claim_C10_theorem.1 (.obj []) rfl, claim_C10_theorem.2.1 (.obj []) rfl⟩

/-- Claim C1, counterexample: a dewpoint stored with unit code wmoUnit:degF
and value 50 is still converted by value times 9/5 plus 32 and rendered
122.0°F (50.0°C); it is not rendered as the raw value with its unit suffix
the way a non-Celsius temperature is. -/
theorem claim_C1_counterexample :
    dewpointUnit degFDew = "degF" ∧
    dewpointStr degFDew = "122.0°F (50.0°C)" ∧
    dewpointStr degFDew ≠ "50.0°F" ∧
    dewpointStr degFDew ≠ "50.0°degF" := by
  have e : dewpointStr degFDew =
      fmtFixed 1 ((50 : ℚ) * 9 / 5 + 32) ++ "°F (" ++ fmtFixed 1 (50 : ℚ) ++ "°C)" := rfl
  rw [show (50 : ℚ) * 9 / 5 + 32 = (122 : ℚ) from by norm_num] at e
  rw [e]
  exact ⟨by decide, by decide, by decide, by decide⟩

/-- Claim C1, amended: only the temperature field consults its unit code,
converting to Fahrenheit exactly when it is degC and otherwise rendering the
raw value with the raw unit suffix; the dewpoint, wind-chill and heat-index
fields are converted to Fahrenheit unconditionally whenever present,
regardless of their unit codes. -/
theorem claim_C1_theorem :
    (∀ (data : Json) (v : ℚ), tempValue data = some v → tempUnit data = "degC" →
        tempStr data = fmtFixed 1 (v * 9 / 5 + 32) ++ "°F (" ++ fmtFixed 1 v ++ "°C)") ∧
    (∀ (data : Json) (v : ℚ), tempValue data = some v → tempUnit data ≠ "degC" →
        tempStr data = fmtFixed 1 v ++ "°" ++ tempUnit data) ∧
    (∀ (data : Json) (v : ℚ), dewpointValue data = some v →
        dewpointStr data = fmtFixed 1 (v * 9 / 5 + 32) ++ "°F (" ++ fmtFixed 1 v ++ "°C)") ∧
    (∀ (data : Json) (v : ℚ), windChillValue data = some v →
        feelsLikeStr data = some (fmtFixed 1 (v * 9 / 5 + 32) ++ "°F (Wind Chill)")) ∧
    (∀ (data : Json) (v : ℚ), windChillValue data = none → heatIndexValue data = some v →
        feelsLikeStr data = some (fmtFixed 1 (v * 9 / 5 + 32) ++ "°F (Heat Index)")) := by
  refine ⟨?_, ?_, ?_, ?_, ?_⟩
  · intro data v h1 h2
    simp [tempStr, h1, h2]
  · intro data v h1 h2
    simp [tempStr, h1, h2]
  · intro data v h1
    simp [dewpointStr, h1]
  · intro data v h1
    simp [feelsLikeStr, h1]
  · intro data v h1 h2
    simp [feelsLikeStr, h1, h2]

/-- Witness for claim C1 at concrete observations: a Celsius temperature, the
degF-labelled dewpoint, and a lone heat index. -/
theorem claim_C1_witness :
    tempStr tempDocC = fmtFixed 1 ((0 : ℚ) * 9 / 5 + 32) ++ "°F (" ++ fmtFixed 1 (0 : ℚ) ++ "°C)" ∧
    dewpointStr degFDew =
      fmtFixed 1 ((50 : ℚ) * 9 / 5 + 32) ++ "°F (" ++ fmtFixed 1 (50 : ℚ) ++ "°C)" ∧
    feelsLikeStr heatDoc = some (fmtFixed 1 ((35 : ℚ) * 9 / 5 + 32) ++ "°F (Heat Index)") :=
  ⟨claim_C1_theorem.1 tempDocC 0 rfl rfl,
   claim_C1_theorem.2.2.1 degFDew 50 rfl,
   claim_C1_theorem.2.2.2.2 heatDoc 35 rfl rfl⟩

/-- Claim C2, counterexample: the input 101325 Pa renders as 1013.2 mb, not
1013.3 mb: 1013.25 is exactly representable and the formatter rounds the tie
to the even digit. -/
theorem claim_C2_counterexample :
    pressureStr pressureDoc = "1013.2 mb" ∧ pressureStr pressureDoc ≠ "1013.3 mb" := by
  refine ⟨pressureDoc_eval, ?_⟩
  rw [pressureDoc_eval]
  decide

/-- Claim C2, amended: every present pressure value in pascals renders as the
value divided by 100 with one decimal place (ties to even) and the suffix
mb, N/A when absent; in particular 101325 renders as 1013.2 mb. -/
theorem claim_C2_theorem :
    (∀ (data : Json) (v : ℚ), pressureValue data = some v →
        pressureStr data = fmtFixed 1 (v / 100) ++ " mb") ∧
    (∀ data : Json, pressureValue data = none → pressureStr data = "N/A") ∧
    pressureStr pressureDoc = "1013.2 mb" := by
  refine ⟨?_, ?_, pressureDoc_eval⟩
  · intro data v h
    simp [pressureStr, h]
  · intro data h
    simp [pressureStr, h]

/-- Witness for claim C2 at the standard-atmosphere document. -/
theorem claim_C2_witness :
    pressureStr pressureDoc = fmtFixed 1 ((101325 : ℚ) / 100) ++ " mb" :=
  claim_C2_theorem.1 pressureDoc 101325 rfl

/-- Claim C8: when both a wind-chill and a heat-index value are present the
feels-like line carries the wind-chill-derived string, never the heat-index
one, and that line appears in the rendered block; when neither value is
present (on fields shaped as the data model allows), no line of the rendered
block is a feels-like line at all. -/
theorem claim_C8_theorem :
    (∀ (data : Json) (wc hi : ℚ),
        windChillValue data = some wc → heatIndexValue data = some hi →
        feelsLikeStr data = some (fmtFixed 1 (wc * 9 / 5 + 32) ++ "°F (Wind Chill)") ∧
        ("Feels Like: " ++ (fmtFixed 1 (wc * 9 / 5 + 32) ++ "°F (Wind Chill)")) ∈
          currentLines data) ∧
    (∀ data : Json, measOk data "windChill" = true → measOk data "heatIndex" = true →
        windChillValue data = none → heatIndexValue data = none →
        ∀ l ∈ currentLines data, ∀ s : String, l ≠ "Feels Like: " ++ s) := by
  constructor
  · intro data wc hi hwc hhi
    have hf : feelsLikeStr data =
        some (fmtFixed 1 (wc * 9 / 5 + 32) ++ "°F (Wind Chill)") := by
      simp [feelsLikeStr, hwc]
    refine ⟨hf, ?_⟩
    have hne : fmtFixed 1 (wc * 9 / 5 + 32) ++ "°F (Wind Chill)" ≠ "" :=
      append_ne_empty _ _ (by decide)
    have hfl : feelsLine data =
        ["Feels Like: " ++ (fmtFixed 1 (wc * 9 / 5 + 32) ++ "°F (Wind Chill)")] := by
      simp [feelsLine, hf, hne]
    simp [currentLines, hfl]
  · intro data _hok1 _hok2 hwc hhi l hl s
    have hf : feelsLikeStr data = none := by simp [feelsLikeStr, hwc, hhi]
    have hfl : feelsLine data = [] := by simp [feelsLine, hf]
    simp only [currentLines, hfl, List.nil_append, List.append_nil, List.cons_append,
      List.mem_cons, List.mem_singleton, List.not_mem_nil, or_false] at hl
    rcases hl with h | h | h | h | h | h | h | h | h | h | h | h <;> subst h <;>
      exact ne_of_data_head rfl rfl (by decide)

/-- Witness for claim C8: a record with both values yields the wind-chill
string; on the empty record a mandatory line is not a feels-like line. -/
theorem claim_C8_witness :
    feelsLikeStr bothFeels =
      some (fmtFixed 1 ((10 : ℚ) * 9 / 5 + 32) ++ "°F (Wind Chill)") ∧
    ("Dewpoint: " ++ dewpointStr (Json.obj [])) ≠ "Feels Like: " ++ "x" := by
  constructor
  · exact (claim_C8_theorem.1 bothFeels 10 30 rfl rfl).1
  · exact claim_C8_theorem.2 (Json.obj []) rfl rfl rfl rfl
      ("Dewpoint: " ++ dewpointStr (Json.obj [])) (by decide) "x"

end NWS
